import Mathlib

/-!
Formal model of the token-estimation and pricing logic of a small
pricing-calculator web service (source: `app(1).py`).

Embedding conventions:
* Python floats are modelled as exact rational numbers (`ℚ`); `round(x, n)`
  is round-half-to-even of the exact value at `n` decimal places.
* Python `int(x)` on a non-negative value truncates, which for the exact
  value `x * 0.6` with natural `x` is floor division `x * 3 / 5`.
* File contents (`bytes`) are lists of natural numbers, one per byte;
  Python strings are lists of code points (`List Char`).
* Filename sanitisation (`secure_filename`) is an external collaborator
  declared out of scope by the specification; it is modelled as the
  identity, so the handler consumes filenames as given.
* The handler's outer `try/except` (HTTP 500) path is unreachable in this
  total model, since every modelled operation is total.
-/

namespace PricingCalc

/-- Byte buffer of an uploaded file, one natural number per byte. -/
abbrev Bytes := List Nat

/-- A Python string, modelled as its list of code points. -/
abbrev PyStr := List Char

/-- Whitespace test of Python `str.strip()`, for the ASCII range. -/
def pyIsSpace (c : Char) : Bool :=
  c == ' ' || c == '\t' || c == '\n' || c == '\r' || c == '\x0b' || c == '\x0c'

/-- Python `text.strip()`: remove leading and trailing whitespace. -/
def pyStrip (s : PyStr) : PyStr :=
  ((s.dropWhile pyIsSpace).reverse.dropWhile pyIsSpace).reverse

/-- Python `s.lower()`, for the ASCII range. -/
def pyLower (s : PyStr) : PyStr := s.map Char.toLower

/-- Identifier of the single hardcoded pricing model (`SONNET_4['model_id']`). -/
def model_id : String := "us.anthropic.claude-sonnet-4-5-20250929-v1:0"

/-- Input price per 1000 tokens (`SONNET_4['input_price_per_1k']`). -/
def input_price_per_1k : ℚ := 0.003

/-- Output price per 1000 tokens (`SONNET_4['output_price_per_1k']`). -/
def output_price_per_1k : ℚ := 0.015

/-- Fixed daily request count used for projections (`REQUESTS_PER_DAY`). -/
def REQUESTS_PER_DAY : ℚ := 100

/-- Token estimate for a text string: `0` when the string is empty
(Python `if not text`), otherwise `max(1, len(text.strip()) // 4)`. -/
def estimate_text_tokens (text : PyStr) : Nat :=
  if text.isEmpty then 0 else max 1 ((pyStrip text).length / 4)

/-- Output-token estimate: `int(input_tokens * 0.6)` clamped into
`[50, 4000]` by `max(50, min(estimated, 4000))`.  Under exact arithmetic
`int(x * 0.6)` truncates, i.e. equals `x * 3 / 5` in floor division. -/
def estimate_output_tokens (input_tokens : Nat) : Nat :=
  max 50 (min (input_tokens * 3 / 5) 4000)

/-- Formalisation of the output-estimator formula as the specification
states it: `clamp(round(input_tokens * 0.6), 50, 4000)` with true
rounding to the nearest integer.  Kept separate from
`estimate_output_tokens` (the code translation) for comparison. -/
def estimate_output_tokens_spec (input_tokens : Nat) : ℤ :=
  max 50 (min (round ((input_tokens : ℚ) * 0.6)) 4000)

/-- Fuel-driven count of non-overlapping occurrences of the pattern `p`
in a byte list, scanning left to right as Python `bytes.count` does.
The fuel only bounds recursion depth; `countPattern` supplies enough. -/
def countPatternAux (p : Bytes) : Nat → Bytes → Nat
  | 0, _ => 0
  | _ + 1, [] => 0
  | fuel + 1, b :: rest =>
    if p.isPrefixOf (b :: rest) then
      1 + countPatternAux p fuel (rest.drop (p.length - 1))
    else
      countPatternAux p fuel rest

/-- Number of non-overlapping occurrences of `p` in `l` (Python
`l.count(p)` on bytes). -/
def countPattern (p l : Bytes) : Nat := countPatternAux p l.length l

/-- The byte pattern `b"/Page"`. -/
def pagePat : Bytes := [47, 80, 97, 103, 101]

/-- Page-count heuristic for PDFs: `max(1, file_content.count(b"/Page"))`.
The `except` fallback of the source (return 1) is unreachable here because
the byte scan is total; it would also yield `max 1` of nothing, i.e. 1. -/
def count_pdf_pages (file_content : Bytes) : Nat :=
  max 1 (countPattern pagePat file_content)

/-- Round-half-to-even to an integer, applied to an exact rational value;
this is Python's rounding rule. -/
def roundHalfEven (x : ℚ) : ℤ :=
  if x - ⌊x⌋ < 1 / 2 then ⌊x⌋
  else if 1 / 2 < x - ⌊x⌋ then ⌊x⌋ + 1
  else if ⌊x⌋ % 2 = 0 then ⌊x⌋ else ⌊x⌋ + 1

/-- Python `round(x, n)` on an exact rational value. -/
def pyRound (x : ℚ) (n : Nat) : ℚ :=
  ((roundHalfEven (x * 10 ^ n) : ℚ)) / 10 ^ n

/-- Cost record produced by `calculate_cost` (`CostBreakdown` of the spec). -/
structure CostBreakdown where
  input : ℚ
  output : ℚ
  total_per_request : ℚ
  weekly_estimate : ℚ
  monthly_estimate : ℚ
deriving DecidableEq

/-- Cost computation of `calculate_cost`: per-request input/output/total
cost rounded to 6 decimals, weekly and monthly projections (100 requests
per day) rounded to 4 decimals. -/
def calculate_cost (input_tokens output_tokens : Nat) : CostBreakdown :=
  let input_cost : ℚ := ((input_tokens : ℚ) / 1000) * input_price_per_1k
  let output_cost : ℚ := ((output_tokens : ℚ) / 1000) * output_price_per_1k
  let total_cost : ℚ := input_cost + output_cost
  let daily_cost : ℚ := total_cost * REQUESTS_PER_DAY
  let weekly_cost : ℚ := daily_cost * 7
  let monthly_cost : ℚ := daily_cost * 30
  ⟨pyRound input_cost 6, pyRound output_cost 6, pyRound total_cost 6,
   pyRound weekly_cost 4, pyRound monthly_cost 4⟩

/-- Validity test for a UTF-8 continuation byte. -/
def contOk (c : Nat) : Bool := 0x80 ≤ c && c ≤ 0xBF

/-- Validity range of the first continuation byte of a 3-byte sequence,
which depends on the lead byte (rejecting overlongs and surrogates). -/
def cont3Ok (b c1 : Nat) : Bool :=
  if b = 0xE0 then 0xA0 ≤ c1 && c1 ≤ 0xBF
  else if b = 0xED then 0x80 ≤ c1 && c1 ≤ 0x9F
  else contOk c1

/-- Validity range of the first continuation byte of a 4-byte sequence,
which depends on the lead byte (rejecting overlongs and values beyond
U+10FFFF). -/
def cont4Ok (b c1 : Nat) : Bool :=
  if b = 0xF0 then 0x90 ≤ c1 && c1 ≤ 0xBF
  else if b = 0xF4 then 0x80 ≤ c1 && c1 ≤ 0x8F
  else contOk c1

/-- Fuel-driven strict UTF-8 decoder modelling Python
`content.decode("utf-8")`: `none` models a `UnicodeDecodeError`. -/
def decodeUtf8Aux : Nat → Bytes → Option (List Char)
  | 0, [] => some []
  | 0, _ :: _ => none
  | _ + 1, [] => some []
  | fuel + 1, b :: rest =>
    if b < 0x80 then
      (decodeUtf8Aux fuel rest).map (Char.ofNat b :: ·)
    else if 0xC2 ≤ b && b ≤ 0xDF then
      match rest with
      | c1 :: r =>
        if contOk c1 then
          (decodeUtf8Aux fuel r).map
            (Char.ofNat ((b - 0xC0) * 0x40 + (c1 - 0x80)) :: ·)
        else none
      | [] => none
    else if 0xE0 ≤ b && b ≤ 0xEF then
      match rest with
      | c1 :: c2 :: r =>
        if cont3Ok b c1 && contOk c2 then
          (decodeUtf8Aux fuel r).map
            (Char.ofNat ((b - 0xE0) * 0x1000 + (c1 - 0x80) * 0x40 + (c2 - 0x80)) :: ·)
        else none
      | _ => none
    else if 0xF0 ≤ b && b ≤ 0xF4 then
      match rest with
      | c1 :: c2 :: c3 :: r =>
        if cont4Ok b c1 && contOk c2 && contOk c3 then
          (decodeUtf8Aux fuel r).map
            (Char.ofNat ((b - 0xF0) * 0x40000 + (c1 - 0x80) * 0x1000 +
              (c2 - 0x80) * 0x40 + (c3 - 0x80)) :: ·)
        else none
      | _ => none
    else none

/-- Strict UTF-8 decode of a byte buffer to a string, `none` on failure. -/
def decodeUtf8 (l : Bytes) : Option PyStr :=
  decodeUtf8Aux l.length l

/-- An uploaded file as the handler consumes it: a (sanitised) filename
and its byte content. -/
structure UploadedFile where
  filename : PyStr
  content : Bytes
deriving DecidableEq

/-- Per-category token counts (`TokenBreakdown` of the spec). -/
structure Breakdown where
  text_tokens : Nat
  image_tokens : Nat
  document_tokens : Nat
deriving DecidableEq

/-- Python `s.endswith(suffix)`, on code-point lists. -/
def strEndsWith (s suffix : PyStr) : Bool :=
  decide (suffix <:+ s)

/-- The image-file extensions recognised by `process_files`. -/
def imageExts : List PyStr :=
  [".jpg".data, ".jpeg".data, ".png".data, ".gif".data, ".webp".data]

/-- Token contribution of one uploaded file, accumulated onto `acc`: the
body of the `for file in files` loop of `process_files`.  The filename is
lowercased before the extension tests. -/
def file_tokens (acc : Breakdown) (f : UploadedFile) : Breakdown :=
  let filename := pyLower f.filename
  if imageExts.any (fun ext => strEndsWith filename ext) then
    ⟨acc.text_tokens, acc.image_tokens + 1600, acc.document_tokens⟩
  else if strEndsWith filename ".pdf".data then
    ⟨acc.text_tokens, acc.image_tokens,
     acc.document_tokens + count_pdf_pages f.content * 500⟩
  else if strEndsWith filename ".txt".data then
    match decodeUtf8 f.content with
    | some text =>
      ⟨acc.text_tokens + estimate_text_tokens text, acc.image_tokens,
       acc.document_tokens⟩
    | none =>
      ⟨acc.text_tokens + f.content.length / 4, acc.image_tokens,
       acc.document_tokens⟩
  else acc

/-- Accumulated token counts of a list of uploaded files
(`process_files`). -/
def process_files (files : List UploadedFile) : Breakdown :=
  files.foldl file_tokens ⟨0, 0, 0⟩

/-- An inbound request to `/api/calc` as the handler sees it: the `files`
field when present, whether the body is JSON, whether non-empty form data
is present, and the `text_input` field (empty-string default). -/
structure CalcRequest where
  files : Option (List UploadedFile)
  is_json : Bool
  form_nonempty : Bool
  text_input : PyStr

/-- Breakdown derived from the uploaded files alone: empty-filename
entries are filtered out (`[f for f in files if f and f.filename]`, where
a `FileStorage` is truthy exactly when its filename is), and
`process_files` runs only when some valid file remains. -/
def files_breakdown (files : Option (List UploadedFile)) : Breakdown :=
  match files with
  | some fs =>
    let valid_files := fs.filter (fun f => !f.filename.isEmpty)
    if valid_files.isEmpty then ⟨0, 0, 0⟩ else process_files valid_files
  | none => ⟨0, 0, 0⟩

/-- The text-input step of the handler: in JSON mode, or when form data is
present, a non-empty `text_input` overwrites the `text_tokens` category
with `estimate_text_tokens text_input` (Python `if text_input:`). -/
def apply_text (b : Breakdown) (is_json form_nonempty : Bool)
    (text_input : PyStr) : Breakdown :=
  if is_json then
    if text_input.isEmpty then b
    else ⟨estimate_text_tokens text_input, b.image_tokens, b.document_tokens⟩
  else if form_nonempty then
    if text_input.isEmpty then b
    else ⟨estimate_text_tokens text_input, b.image_tokens, b.document_tokens⟩
  else b

/-- Token breakdown the handler reaches after processing files and text. -/
def handler_breakdown (req : CalcRequest) : Breakdown :=
  apply_text (files_breakdown req.files) req.is_json req.form_nonempty
    req.text_input

/-- Sum of the three breakdown categories (`total_input_tokens`). -/
def total_input_tokens (b : Breakdown) : Nat :=
  b.text_tokens + b.image_tokens + b.document_tokens

/-- Success payload of the handler's HTTP 200 response. -/
structure SuccessPayload where
  model_id : String
  input_tokens : Nat
  output_tokens : Nat
  breakdown : Breakdown
  cost : CostBreakdown
  pricing_input : ℚ
  pricing_output : ℚ
deriving DecidableEq

/-- Response of the handler: a success payload with its status code, or a
failure carrying only an error message and a status code. -/
inductive CalcResponse where
  | success (payload : SuccessPayload) (status : Nat)
  | failure (error : String) (status : Nat)
deriving DecidableEq

/-- The `/api/calc` handler (`calculate`): builds the breakdown from files
and text, rejects a zero token total with a 400 error, and otherwise
returns the tokens, cost and pricing rates with status 200. -/
def calculate (req : CalcRequest) : CalcResponse :=
  let breakdown := handler_breakdown req
  let total := total_input_tokens breakdown
  if total = 0 then
    .failure "Please enter a prompt or upload files" 400
  else
    let output_tokens := estimate_output_tokens total
    .success
      ⟨model_id, total, output_tokens, breakdown,
       calculate_cost total output_tokens,
       input_price_per_1k, output_price_per_1k⟩ 200

/-! ## Helper lemmas -/

/-- Round-half-to-even of an integer is that integer. -/
theorem roundHalfEven_intCast (n : ℤ) : roundHalfEven (n : ℚ) = n := by
  simp [roundHalfEven, Int.floor_intCast]

/-- Rounding at `n` decimals leaves a value with at most `n` decimals
unchanged. -/
theorem pyRound_fixed (x : ℚ) (n : Nat) (m : ℤ) (h : x * 10 ^ n = m) :
    pyRound x n = x := by
  rw [pyRound, h, roundHalfEven_intCast, div_eq_iff (by positivity)]
  exact h.symm

/-- The input-cost field of `calculate_cost` is exact: rounding to six
decimals does not change it. -/
theorem calculate_cost_input_exact (x y : Nat) :
    (calculate_cost x y).input = 3 * (x : ℚ) / 1000000 := by
  have h : (((x : ℚ) / 1000) * input_price_per_1k) * 10 ^ 6
      = ((3 * x : ℤ) : ℚ) := by
    rw [input_price_per_1k]
    push_cast
    ring_nf
  calc (calculate_cost x y).input
      = pyRound (((x : ℚ) / 1000) * input_price_per_1k) 6 := rfl
    _ = ((x : ℚ) / 1000) * input_price_per_1k := pyRound_fixed _ _ _ h
    _ = 3 * (x : ℚ) / 1000000 := by
        rw [input_price_per_1k]
        norm_num
        ring

/-- Two lists that are not suffixes of one another are never both
suffixes of the same list. -/
theorem not_suffix_both {s a b : PyStr} (ha : a <:+ s)
    (hab : ¬ a <:+ b) (hba : ¬ b <:+ a) : ¬ b <:+ s := fun hb =>
  (Nat.le_total a.length b.length).elim
    (fun h => hab (List.suffix_of_suffix_length_le ha hb h))
    (fun h => hba (List.suffix_of_suffix_length_le hb ha h))

/-! ## Claim theorems -/

/-- Claim C1, counterexample: at `input_tokens = 101` the code returns
`int(101 * 0.6) = 60`, while the specification's formula
`clamp(round(101 * 0.6), 50, 4000) = clamp(round(60.6), 50, 4000)`
gives 61: the output estimator truncates, it does not round. -/
theorem estimate_output_tokens_round_counterexample :
    estimate_output_tokens 101 = 60 ∧ estimate_output_tokens_spec 101 = 61 ∧
      (estimate_output_tokens 101 : ℤ) ≠ estimate_output_tokens_spec 101 := by
  have hr : round ((((101 : ℕ) : ℚ)) * 0.6) = 61 := by
    have h1 : (((101 : ℕ) : ℚ) * 0.6 + 1 / 2) = 611 / 10 := by norm_num
    have h2 : ⌊(611 / 10 : ℚ)⌋ = 61 := by
      rw [Int.floor_eq_iff]
      norm_num
    rw [round_eq, h1, h2]
  refine ⟨by decide, ?_, ?_⟩
  · rw [estimate_output_tokens_spec, hr]; decide
  · rw [estimate_output_tokens_spec, hr]; decide

/-- Claim C1, amended: for every non-negative integer `input_tokens`,
`estimate_output_tokens input_tokens` equals
`clamp(floor(input_tokens * 0.6), 50, 4000)` (truncation rather than
rounding); in particular the result is always in `[50, 4000]`,
`estimate_output_tokens 0 = 50` and `estimate_output_tokens 10000 = 4000`. -/
theorem estimate_output_tokens_clamped_floor :
    (∀ x : Nat,
      (estimate_output_tokens x : ℤ) = max 50 (min ⌊(x : ℚ) * 0.6⌋ 4000) ∧
        50 ≤ estimate_output_tokens x ∧ estimate_output_tokens x ≤ 4000) ∧
      estimate_output_tokens 0 = 50 ∧ estimate_output_tokens 10000 = 4000 := by
  refine ⟨fun x => ⟨?_, ?_, ?_⟩, by decide, by decide⟩
  · have hq : ((x * 3 / 5 : ℕ) : ℤ) = ⌊(x : ℚ) * 0.6⌋ := by
      have hb : x * 3 / 5 * 5 ≤ 3 * x ∧ 3 * x < (x * 3 / 5 + 1) * 5 := by omega
      symm
      rw [Int.floor_eq_iff]
      constructor
      · rw [show ((x : ℚ) * 0.6) = 3 * (x : ℚ) / 5 by norm_num; ring,
          le_div_iff₀ (by norm_num : (0 : ℚ) < 5)]
        exact_mod_cast hb.1
      · rw [show ((x : ℚ) * 0.6) = 3 * (x : ℚ) / 5 by norm_num; ring,
          div_lt_iff₀ (by norm_num : (0 : ℚ) < 5)]
        push_cast
        exact_mod_cast hb.2
    rw [estimate_output_tokens, ← hq]
    push_cast [Nat.cast_max, Nat.cast_min]
    rfl
  · exact le_max_left _ _
  · rw [estimate_output_tokens]; omega

/-- Claim C2: `calculate_cost` returns the input cost
`(input_tokens / 1000) * 0.003` rounded to 6 decimals, the output cost
`(output_tokens / 1000) * 0.015` rounded to 6 decimals, their unrounded
sum rounded to 6 decimals as the per-request total, and that total times
`100 * 7` resp. `100 * 30` rounded to 4 decimals as the weekly resp.
monthly estimates. -/
theorem calculate_cost_formulas (input_tokens output_tokens : Nat) :
    calculate_cost input_tokens output_tokens =
      ⟨pyRound (((input_tokens : ℚ) / 1000) * 0.003) 6,
       pyRound (((output_tokens : ℚ) / 1000) * 0.015) 6,
       pyRound (((input_tokens : ℚ) / 1000) * 0.003 +
         ((output_tokens : ℚ) / 1000) * 0.015) 6,
       pyRound ((((input_tokens : ℚ) / 1000) * 0.003 +
         ((output_tokens : ℚ) / 1000) * 0.015) * 100 * 7) 4,
       pyRound ((((input_tokens : ℚ) / 1000) * 0.003 +
         ((output_tokens : ℚ) / 1000) * 0.015) * 100 * 30) 4⟩ := rfl

/-- Claim C6: `estimate_text_tokens` returns 0 for an empty text, returns
`max 1 (trimmed_length / 4)` for every non-empty text, and in particular
returns 1 on `"ab"`.  (An absent Python argument, `None`, is falsy exactly
like the empty string, so it is covered by the empty case.) -/
theorem estimate_text_tokens_spec_thm :
    estimate_text_tokens [] = 0 ∧
      (∀ text : PyStr, text ≠ [] →
        estimate_text_tokens text = max 1 ((pyStrip text).length / 4)) ∧
      estimate_text_tokens "ab".data = 1 := by
  refine ⟨rfl, fun text ht => ?_, by decide⟩
  rw [estimate_text_tokens, if_neg]
  simp [List.isEmpty_iff, ht]

/-- Witness for claim C6: the non-empty case at the concrete text
`"  hello  "`, whose trimmed length is 5. -/
theorem estimate_text_tokens_spec_witness :
    "  hello  ".data ≠ [] ∧
      estimate_text_tokens "  hello  ".data =
        max 1 ((pyStrip "  hello  ".data).length / 4) :=
  ⟨by decide,
   estimate_text_tokens_spec_thm.2.1 "  hello  ".data (by decide)⟩

/-- Claim C9: doubling the input tokens (with output tokens re-derived by
the output estimator) exactly doubles the reported `input` cost field. -/
theorem input_cost_linear (x : Nat) :
    (calculate_cost (2 * x) (estimate_output_tokens (2 * x))).input =
      2 * (calculate_cost x (estimate_output_tokens x)).input := by
  rw [calculate_cost_input_exact, calculate_cost_input_exact]
  push_cast
  ring

/-- Claim C5: a file whose (lowercased) name ends in `.pdf` contributes
`max 1 (count of the byte pattern "/Page") * 500` document tokens, and
only document tokens.  The scan is total in this model, so the source's
local recovery to 1 page (500 tokens) can never surface an error. -/
theorem pdf_file_tokens (acc : Breakdown) (name : PyStr) (content : Bytes)
    (h : strEndsWith (pyLower name) ".pdf".data = true) :
    file_tokens acc ⟨name, content⟩ =
      ⟨acc.text_tokens, acc.image_tokens,
       acc.document_tokens + max 1 (countPattern pagePat content) * 500⟩ := by
  have hpdf : ".pdf".data <:+ pyLower name := by
    rw [strEndsWith, decide_eq_true_eq] at h
    exact h
  have hany : imageExts.any (fun ext => strEndsWith (pyLower name) ext)
      = false := by
    rw [List.any_eq_false]
    intro ext hext
    simp only [strEndsWith, decide_eq_true_eq]
    fin_cases hext <;>
      exact not_suffix_both hpdf (by decide) (by decide)
  rw [file_tokens]
  simp only [hany, Bool.false_eq_true, if_false, h, if_true, count_pdf_pages]

/-- Witness for claim C5: a PDF whose bytes hold exactly three occurrences
of `"/Page"` yields 1500 document tokens; an empty PDF yields 500. -/
theorem pdf_file_tokens_witness :
    (file_tokens ⟨0, 0, 0⟩ ⟨"report.pdf".data,
      [47, 80, 97, 103, 101, 115, 47, 80, 97, 103, 101,
       47, 80, 97, 103, 101]⟩).document_tokens = 1500 ∧
    (file_tokens ⟨0, 0, 0⟩ ⟨"report.pdf".data, []⟩).document_tokens
      = 500 := by
  constructor
  · rw [pdf_file_tokens ⟨0, 0, 0⟩ "report.pdf".data _ (by decide)]
    decide
  · rw [pdf_file_tokens ⟨0, 0, 0⟩ "report.pdf".data [] (by decide)]
    decide

/-- Claim C7: a file whose (lowercased) name ends in one of `.jpg`,
`.jpeg`, `.png`, `.gif`, `.webp` contributes exactly 1600 image tokens,
independent of its byte content. -/
theorem image_file_tokens (acc : Breakdown) (name : PyStr) (content : Bytes)
    (h : ∃ ext ∈ imageExts, strEndsWith (pyLower name) ext = true) :
    file_tokens acc ⟨name, content⟩ =
      ⟨acc.text_tokens, acc.image_tokens + 1600, acc.document_tokens⟩ := by
  have hany : imageExts.any (fun ext => strEndsWith (pyLower name) ext)
      = true := by
    rw [List.any_eq_true]
    obtain ⟨e, he, hs⟩ := h
    exact ⟨e, he, hs⟩
  rw [file_tokens]
  simp only [hany, if_true]

/-- Witness for claim C7: a zero-byte file with an upper-case `.PNG`
extension still contributes exactly 1600 image tokens. -/
theorem image_file_tokens_witness :
    file_tokens ⟨0, 0, 0⟩ ⟨"photo.PNG".data, []⟩ = ⟨0, 1600, 0⟩ := by
  rw [image_file_tokens ⟨0, 0, 0⟩ "photo.PNG".data []
    ⟨".png".data, by decide, by decide⟩]

/-- Claim C3: when the total of the three breakdown categories after
processing files and text is zero, the handler fails with exactly
`"Please enter a prompt or upload files"` and status 400, carrying no
token or cost fields; when the total is positive this validation branch
is not taken and a success payload is returned with status 200. -/
theorem calculate_validation (req : CalcRequest) :
    (total_input_tokens (handler_breakdown req) = 0 →
      calculate req =
        CalcResponse.failure "Please enter a prompt or upload files" 400) ∧
    (total_input_tokens (handler_breakdown req) ≠ 0 →
      ∃ payload, calculate req = CalcResponse.success payload 200) := by
  constructor
  · intro h
    rw [calculate]
    simp only [h, if_true]
  · intro h
    rw [calculate]
    simp only [h, if_neg h]
    exact ⟨_, rfl⟩

/-- Witness for claim C3: the empty request fails with the fixed message
and status 400; a JSON request with text `"abcd"` succeeds with 200. -/
theorem calculate_validation_witness :
    calculate ⟨none, false, false, []⟩ =
      CalcResponse.failure "Please enter a prompt or upload files" 400 ∧
    ∃ payload, calculate ⟨none, true, false, "abcd".data⟩ =
      CalcResponse.success payload 200 :=
  ⟨(calculate_validation ⟨none, false, false, []⟩).1 (by decide),
   (calculate_validation ⟨none, true, false, "abcd".data⟩).2 (by decide)⟩

/-- Claim C4: a non-empty text input (JSON body or form data) overwrites
the `text_tokens` category with `estimate_text_tokens text_input`,
discarding any text-token contribution from uploaded `.txt` files, while
`image_tokens` and `document_tokens` stay those of the file pass. -/
theorem text_input_overwrites (req : CalcRequest)
    (ht : req.text_input ≠ [])
    (hmode : req.is_json = true ∨ req.form_nonempty = true) :
    handler_breakdown req =
      ⟨estimate_text_tokens req.text_input,
       (files_breakdown req.files).image_tokens,
       (files_breakdown req.files).document_tokens⟩ := by
  have hne : req.text_input.isEmpty = false := by
    cases hcase : req.text_input
    · exact absurd hcase ht
    · rfl
  rw [handler_breakdown, apply_text]
  cases hj : req.is_json
  · have hf : req.form_nonempty = true := by
      rcases hmode with hm | hm
      · rw [hj] at hm
        exact absurd hm (by decide)
      · exact hm
    simp only [hf, hne, Bool.false_eq_true, if_false, if_true]
  · simp only [hne, Bool.false_eq_true, if_false, if_true]

/-- Witness for claim C4: with an uploaded `.txt` worth 1 text token and
the 8-character text input `"abcdefgh"`, the final breakdown holds 2 text
tokens (the text input's estimate), not 3 (the sum). -/
theorem text_input_overwrites_witness :
    handler_breakdown ⟨some [⟨"notes.txt".data, [104, 105, 106, 107, 108]⟩],
        true, false, "abcdefgh".data⟩ = ⟨2, 0, 0⟩ ∧
      files_breakdown (some [⟨"notes.txt".data, [104, 105, 106, 107, 108]⟩])
        = ⟨1, 0, 0⟩ := by
  constructor
  · rw [text_input_overwrites _ (by decide) (Or.inl rfl)]
    decide
  · decide

/-- Claim C10: a text input that is present but empty leaves the
breakdown of the file pass unchanged, preserving text tokens derived from
uploaded `.txt` files; only a non-empty text input overwrites them. -/
theorem empty_text_input_preserves (req : CalcRequest)
    (h : req.text_input = []) :
    handler_breakdown req = files_breakdown req.files := by
  rw [handler_breakdown, apply_text, h]
  cases req.is_json
  · cases req.form_nonempty <;> simp
  · simp

/-- Witness for claim C10: with an uploaded `.txt` worth 1 text token and
an empty text input, the breakdown keeps the file's text token. -/
theorem empty_text_input_preserves_witness :
    handler_breakdown ⟨some [⟨"notes.txt".data, [104, 105, 106, 107, 108]⟩],
        true, false, []⟩ =
      files_breakdown (some [⟨"notes.txt".data, [104, 105, 106, 107, 108]⟩]) ∧
    files_breakdown (some [⟨"notes.txt".data, [104, 105, 106, 107, 108]⟩])
      = ⟨1, 0, 0⟩ :=
  ⟨empty_text_input_preserves _ rfl, by decide⟩

/-- Claim C8, counterexample: an uploaded file with a non-empty filename
but no content is NOT excluded — a zero-byte `pic.jpg` contributes 1600
image tokens, not 0.  The source's filter `[f for f in files if f and
f.filename]` tests only the filename (a `FileStorage` is truthy exactly
when its filename is), never the content. -/
theorem empty_content_not_excluded_counterexample :
    files_breakdown (some [⟨"pic.jpg".data, []⟩]) = ⟨0, 1600, 0⟩ ∧
      (⟨0, 1600, 0⟩ : Breakdown) ≠ (⟨0, 0, 0⟩ : Breakdown) := by decide

/-- Claim C8, amended: files with an empty filename are excluded before
estimation and contribute nothing to any category; a file whose extension
matches none of the image/`.pdf`/`.txt` cases contributes 0 tokens to
every category (a silent skip, not an error); and the remaining files
accumulate one by one into a single breakdown.  A file with empty content
but a non-empty filename is not excluded. -/
theorem files_filter_and_skip (fs1 fs2 : List UploadedFile)
    (f : UploadedFile) (hf : f.filename = [])
    (g : UploadedFile) (acc : Breakdown)
    (hg1 : imageExts.any (fun ext => strEndsWith (pyLower g.filename) ext)
      = false)
    (hg2 : strEndsWith (pyLower g.filename) ".pdf".data = false)
    (hg3 : strEndsWith (pyLower g.filename) ".txt".data = false) :
    files_breakdown (some (fs1 ++ f :: fs2)) =
        files_breakdown (some (fs1 ++ fs2)) ∧
      file_tokens acc g = acc ∧
      (∀ fs : List UploadedFile, ∀ u : UploadedFile,
        process_files (fs ++ [u]) = file_tokens (process_files fs) u) := by
  refine ⟨?_, ?_, ?_⟩
  · rw [files_breakdown, files_breakdown]
    simp only [List.filter_append, List.filter_cons, hf, List.isEmpty_nil,
      Bool.not_true, Bool.false_eq_true, if_false]
  · rw [file_tokens]
    simp only [hg1, hg2, hg3, Bool.false_eq_true, if_false]
  · intro fs u
    rw [process_files, process_files, List.foldl_append, List.foldl_cons,
      List.foldl_nil]

/-- Witness for claim C8, amended: inserting an empty-named file changes
nothing, a `.exe` file contributes nothing, and processing appends
file by file. -/
theorem files_filter_and_skip_witness :
    (files_breakdown (some ([⟨"a.txt".data, [104, 105, 106, 107]⟩] ++
        (⟨[], [1, 2, 3]⟩ : UploadedFile) :: [⟨"b.exe".data, [1]⟩])) =
      files_breakdown (some ([⟨"a.txt".data, [104, 105, 106, 107]⟩] ++
        [⟨"b.exe".data, [1]⟩]))) ∧
      file_tokens ⟨5, 6, 7⟩ ⟨"b.exe".data, [1]⟩ = ⟨5, 6, 7⟩ ∧
      (∀ fs : List UploadedFile, ∀ u : UploadedFile,
        process_files (fs ++ [u]) = file_tokens (process_files fs) u) :=
  files_filter_and_skip [⟨"a.txt".data, [104, 105, 106, 107]⟩]
    [⟨"b.exe".data, [1]⟩] ⟨[], [1, 2, 3]⟩ rfl ⟨"b.exe".data, [1]⟩ ⟨5, 6, 7⟩
    (by decide) (by decide) (by decide)

end PricingCalc
